import Mathlib

/-!
Shallow embedding, in Lean 4, of the parts of the `repairshopr_api`
repository that the verified claims refer to.  Times are modelled as
integer seconds, machine integers as `Int`/`Nat` (Python integers are
unbounded, so no wrap-around modelling is needed), JSON payloads as an
inductive `Json` type, and the mutable client state as explicit state
passing.  Each definition carries a pointer to the source location it
embeds.
-/

namespace RSApi

/-! ## Rate limiter (`repairshopr_api/client.py`, `Client`) -/

/-- `Client.REQUEST_LIMIT` (client.py:58). -/
def REQUEST_LIMIT : Nat := 150

/-- `Client._clear_old_request_timestamps` (client.py:89-94): pop entries from
the front of the deque while the front entry is older than 60 seconds.
The Python `while ... popleft` loop on the front of the deque is exactly
`List.dropWhile`. -/
def clearOldRequestTimestamps (now : Int) (window : List Int) : List Int :=
  window.dropWhile (fun t => t < now - 60)

/-- Result of one `_wait_for_rate_limit` call: the time when the call
returns (it advances by the slept amount), the new request window, and the
seconds slept (0 when no sleep happened). -/
structure RateLimitResult where
  timeAfter : Int
  window : List Int
  slept : Int
  deriving Repr, DecidableEq

/-- `Client._wait_for_rate_limit` (client.py:96-107): purge entries older than
60s; if strictly more than `REQUEST_LIMIT` entries remain, sleep until the
oldest entry is 60s old (when that duration is positive), purge again, and
finally append the current time.  The two `datetime.now()` reads inside one
invocation are modelled as the same instant, advanced exactly by the slept
duration. -/
def waitForRateLimit (now : Int) (window : List Int) : RateLimitResult :=
  let w1 := clearOldRequestTimestamps now window
  if REQUEST_LIMIT < w1.length then
    let oldest := w1.headD 0
    let sleepTime := 60 - (now - oldest)
    if 0 < sleepTime then
      let now2 := now + sleepTime
      let w2 := clearOldRequestTimestamps now2 w1
      { timeAfter := now2, window := w2 ++ [now2], slept := sleepTime }
    else
      { timeAfter := now, window := clearOldRequestTimestamps now w1 ++ [now],
        slept := 0 }
  else
    { timeAfter := now, window := w1 ++ [now], slept := 0 }

/-! ## Retry policy (`Client.request`, client.py:153-191)

`request` raises `requests.RequestException` on 429 and on any unexpected
status (both retried by tenacity's `retry_if_exception_type`), raises
`PermissionError` on 401 and `ValueError` on 404 (neither is a
`RequestException`, so tenacity propagates them immediately), and returns
the response unchanged on 200.  `stop_after_attempt(6)` bounds the total
number of attempts; `reraise=True` re-raises the last error after
exhaustion. -/

/-- `Client.MAX_RETRIES` (client.py:57). -/
def MAX_RETRIES : Nat := 6

/-- Classification of one HTTP status code by the `match` in
`Client.request` (client.py:166-189). -/
inductive StatusClass where
  /-- 200: returned as-is. -/
  | ok
  /-- 401: `PermissionError`, not a `RequestException`, never retried. -/
  | unauthorized
  /-- 404: `ValueError`, not a `RequestException`, never retried. -/
  | notFound
  /-- 429 and any other non-200 status: `requests.RequestException`,
  retried by tenacity. -/
  | retryable
  deriving Repr, DecidableEq

/-- The status-code `match` of `Client.request` (client.py:166-189). -/
def classifyStatus (code : Nat) : StatusClass :=
  if code = 200 then .ok
  else if code = 401 then .unauthorized
  else if code = 404 then .notFound
  else .retryable

/-- Final outcome of the retried `request` call.  Each constructor carries
the 0-based index of the attempt that produced it, so the number of
underlying HTTP requests performed is the index plus one. -/
inductive RetryOutcome where
  /-- Attempt `i` returned status 200; the response of attempt `i` is
  returned as-is. -/
  | success (attempt : Nat)
  /-- Attempt `i` hit a 401; propagated immediately. -/
  | unauthorized (attempt : Nat)
  /-- Attempt `i` hit a 404; propagated immediately. -/
  | notFound (attempt : Nat)
  /-- All allowed attempts raised retryable errors; the error of the last
  attempt (`i`) is re-raised (`reraise=True`). -/
  | exhausted (attempt : Nat)
  deriving Repr, DecidableEq

/-- The tenacity-driven retry loop around `Client.request`
(client.py:153-159): `statuses n` is the HTTP status the server returns on
the (0-based) attempt `n`.  `remaining` counts attempts still allowed. -/
def retryLoop (statuses : Nat → Nat) (attempt : Nat) : Nat → RetryOutcome
  | 0 => .exhausted (attempt - 1)
  | remaining + 1 =>
    match classifyStatus (statuses attempt) with
    | .ok => .success attempt
    | .unauthorized => .unauthorized attempt
    | .notFound => .notFound attempt
    | .retryable =>
      if remaining = 0 then .exhausted attempt
      else retryLoop statuses (attempt + 1) remaining

/-- `Client.request` under its `@retry` decorator: up to `MAX_RETRIES`
attempts. -/
def requestWithRetry (statuses : Nat → Nat) : RetryOutcome :=
  retryLoop statuses 0 MAX_RETRIES

/-- Number of HTTP requests actually performed for an outcome. -/
def RetryOutcome.requestsMade : RetryOutcome → Nat
  | .success i => i + 1
  | .unauthorized i => i + 1
  | .notFound i => i + 1
  | .exhausted i => i + 1

/-- `wait_exponential(min=2, max=30)` (client.py:156): the sleep before the
retry following failed attempt number `n` (1-based) is `2 ^ n` clamped to
the band `[2, 30]`. -/
def backoffSleep (n : Nat) : Nat := min 30 (max 2 (2 ^ n))

/-! ## JSON payloads (`repairshopr_api/type_defs.py`)

`JsonValue` from type_defs.py: `None | bool | int | str | list | dict`.
Floats are not needed by any verified claim and are omitted. -/

/-- A JSON value as handled by the client (`type_defs.py`). -/
inductive Json where
  | null
  | bool (b : Bool)
  | num (n : Int)
  | str (s : String)
  | arr (items : List Json)
  | obj (entries : List (String × Json))

/-- `is_json_object` (type_defs.py): the payload is a dict. -/
def Json.isObj : Json → Bool
  | .obj _ => true
  | _ => false

/-- `is_json_array` (type_defs.py): the payload is a list. -/
def Json.isArr : Json → Bool
  | .arr _ => true
  | _ => false

/-- `is_json_object(item) or is_json_array(item)` (client.py:293-295). -/
def Json.isObjOrArr (j : Json) : Bool := j.isObj || j.isArr

/-- Python truthiness of a JSON value (`if not result`, client.py:354):
`None`, `False`, `0`, `""`, `[]` and `{}` are falsy. -/
def Json.falsy : Json → Bool
  | .null => true
  | .bool b => !b
  | .num n => n == 0
  | .str s => s == ""
  | .arr items => items.isEmpty
  | .obj entries => entries.isEmpty

/-! ## Client cache and fetch (`repairshopr_api/client.py`) -/

/-- A value of Python `QueryParams = dict[str, str | int | bool]`
(type_defs.py). -/
inductive ParamValue where
  | str (s : String)
  | num (n : Int)
  | bool (b : Bool)
  deriving Repr, DecidableEq

/-- Query parameters: a Python dict, modelled as an association list in
insertion order with distinct keys. -/
def QueryParams := List (String × ParamValue)

/-- Deterministic rendering of one parameter value, used by the cache-key
serialization. -/
def ParamValue.render : ParamValue → String
  | .str s => s
  | .num n => toString n
  | .bool b => toString b

/-- Insert one parameter into a key-sorted list (helper for
`sortedParams`). -/
def insertParamSorted (p : String × ParamValue) :
    List (String × ParamValue) → List (String × ParamValue)
  | [] => [p]
  | q :: rest =>
    if p.1 < q.1 then p :: q :: rest else q :: insertParamSorted p rest

/-- `sorted(params.items())` (client.py:273): dict items sorted by key (dict
keys are distinct, so comparing keys decides the order). -/
def sortedParams (params : QueryParams) : List (String × ParamValue) :=
  params.foldr insertParamSorted []

/-- Serialization of the sorted parameters.  Python feeds
`hash(sorted_params)` into the cache key; any fixed deterministic function
of the sorted items models this for calls with identical arguments, and an
injective serialization is used here (Python hash collisions between
distinct parameter dicts are not modelled). -/
def renderSortedParams (params : QueryParams) : String :=
  (sortedParams params).foldl
    (fun acc p => acc ++ "&" ++ p.1 ++ "=" ++ p.2.render) ""

/-- The list cache key of `Client.fetch_from_api` (client.py:271-274):
`f"{model_name}_list"`, extended with the sorted-params serialization when
params are non-empty. -/
def listCacheKey (modelName : String) (params : QueryParams) : String :=
  if params.isEmpty then modelName ++ "_list"
  else modelName ++ "_list_" ++ renderSortedParams params

/-- Modelled from the spec: `snake_case` from
`repairshopr_api.converters.strings` (the `converters` module is not
present under `src/`).  Spec §6 uses it as the model's "normalized name"
in URLs and payload keys: `CamelCase` becomes `camel_case`. -/
def snakeCaseChars : Bool → List Char → List Char
  | _, [] => []
  | first, c :: rest =>
    if c.isUpper && !first then '_' :: c.toLower :: snakeCaseChars false rest
    else c.toLower :: snakeCaseChars false rest

/-- Modelled from the spec: see `snakeCaseChars`. -/
def snakeCase (s : String) : String := String.mk (snakeCaseChars true s.toList)

/-- Python `str.lower()` on a class name (client.py:322, 340):
per-character basic-latin lowercasing (class names are ASCII). -/
def pyLower (s : String) : String := String.mk (s.toList.map Char.toLower)

/-- One entry of `Client._cache` (client.py:40, `CacheValue` type alias):
either a `(rows, meta)` list result or a single object payload. -/
inductive CacheValue where
  | listResult (rows : List Json) (meta : Option Json)
  | single (payload : Json)

/-- The state held in `Client`'s **class attributes** `_cache` and
`_request_timestamps` (client.py:60-61).  Both are declared on the class
and only ever mutated in place (`self._cache[...] = ...`,
`self._cache.clear()`, `append`/`popleft` on the deque), never rebound on
an instance, so every `Client` instance operates on this one shared state.
`networkCalls` is a ghost counter of HTTP requests issued, used to state
the memoization properties; it is not a Python field. -/
structure SharedState where
  cache : List (String × CacheValue)
  requestTimestamps : List Int
  networkCalls : Nat

/-- The per-instance attributes of `Client.__init__` (client.py:63-87) that
the verified claims need: `base_url` and `token` (client.py:78-79), the
`updated_at` timestamp (client.py:81, as Unix seconds) and the
`_has_line_item_in_cache` prefetch flag (client.py:82).  Unlike `_cache`
and `_request_timestamps`, these are assigned on `self`, hence genuinely
per-instance. -/
structure ClientInstance where
  baseUrl : String
  token : String
  updatedAt : Option Int
  hasLineItemInCache : Bool
  deriving Repr, DecidableEq

/-- The network, as seen by one sync cycle: a deterministic map from
request URL and query parameters to the JSON payload of a successful (200)
response.  Retries and rate limiting are modelled separately
(`requestWithRetry`, `waitForRateLimit`). -/
def Network := String → QueryParams → Json

/-- `Client.fetch_from_api` (client.py:266-315): serve from the shared
cache when the key is present; otherwise issue one network request,
validate the payload shape (dict payload, `{model_name}s` list of
objects/row-arrays, `meta` absent/null or a dict), store the result under
the key and return it.  Validation failures raise `ValueError`, modelled
as `Except.error`. -/
def fetchFromApi (net : Network) (inst : ClientInstance) (modelName : String)
    (params : QueryParams) (s : SharedState) :
    Except String (CacheValue × SharedState) :=
  let cacheKey := listCacheKey modelName params
  match s.cache.lookup cacheKey with
  | some cached => .ok (cached, s)
  | none =>
    let payload := net (inst.baseUrl ++ "/" ++ modelName ++ "s") params
    let s1 : SharedState := { s with networkCalls := s.networkCalls + 1 }
    match payload with
    | .obj entries =>
      match entries.lookup (modelName ++ "s") with
      | some (.arr rows) =>
        if rows.all Json.isObjOrArr then
          match entries.lookup "meta" with
          | none =>
            let value := CacheValue.listResult rows none
            .ok (value, { s1 with cache := (cacheKey, value) :: s1.cache })
          | some .null =>
            let value := CacheValue.listResult rows none
            .ok (value, { s1 with cache := (cacheKey, value) :: s1.cache })
          | some (.obj metaEntries) =>
            let value := CacheValue.listResult rows (some (.obj metaEntries))
            .ok (value, { s1 with cache := (cacheKey, value) :: s1.cache })
          | some _ => .error "Invalid meta payload type"
        else .error "Invalid item payload type in collection"
      | _ => .error "Missing or invalid collection list in payload"
    | _ => .error "Unexpected payload type for list request"

/-- Python `params["page"] = page` (client.py:382): assign the key in
place, preserving its position when it already exists and appending it
otherwise (dict semantics). -/
def setParam (key : String) (v : ParamValue) : QueryParams → QueryParams
  | [] => [(key, v)]
  | (k, w) :: rest =>
    if k = key then (key, v) :: rest else (k, w) :: setParam key v rest

/-- The break test of the `get_model` page loop (client.py:395):
`not meta_data or page >= meta_data.get("total_pages", 0)`.  `meta_data`
is falsy when it is `None` or an empty dict; a missing `total_pages`
defaults to `0`; a present non-integer `total_pages` would raise
`TypeError` in the Python comparison, modelled as an error. -/
def pageLoopDone (page : Int) (meta : Option Json) : Except String Bool :=
  match meta with
  | some (.obj entries) =>
    if entries.isEmpty then .ok true
    else
      match entries.lookup "total_pages" with
      | none => .ok (decide (0 ≤ page))
      | some (.num total) => .ok (decide (total ≤ page))
      | some _ => .error "TypeError: unorderable total_pages"
  | _ => .ok true

/-- The page loop of `Client.get_model` (client.py:380-403) as run by the
prefetch (no `updated_at` argument and no `num_last_pages`, so the page
advances by 1): fetch each page through `fetch_from_api`, collect its raw
rows, and stop when the break test fires.  The `from_dict` hydration of
each row (client.py:385-393) is not modelled: the prefetch only reads the
rows back out of the resulting models.  `fuel` bounds the number of
iterations; exhaustion is reported as an error, so every `.ok` result of
the model is a faithful run (the Python loop is bounded only by the
metadata the server reports). -/
def getModelPageLoop (net : Network) (inst : ClientInstance)
    (modelName : String) (params : QueryParams) :
    Nat → Int → SharedState → Except String (List Json × SharedState)
  | 0, _, _ => .error "page budget exceeded"
  | fuel + 1, page, s =>
    match fetchFromApi net inst modelName (setParam "page" (.num page) params) s with
    | .error e => .error e
    | .ok (CacheValue.single _, _) => .error "Unexpected cache payload type"
    | .ok (CacheValue.listResult rows meta, s1) =>
      match pageLoopDone page meta with
      | .error e => .error e
      | .ok true => .ok (rows, s1)
      | .ok false =>
        match getModelPageLoop net inst modelName params fuel (page + 1) s1 with
        | .error e => .error e
        | .ok (rest, s2) => .ok (rows ++ rest, s2)

/-- The 52-week prefetch cutoff (client.py:218-219):
`relative_cutoff(self.updated_at, delta=timedelta(weeks=52))`
is `datetime.now() - 52 weeks`, in seconds. -/
def PREFETCH_CUTOFF_SECONDS : Int := 52 * 7 * 86400

/-- The recency gate of `prefetch_line_items` (client.py:217-223): with a
(truthy) `updated_at` newer than `now - 52 weeks`, the prefetch returns
without fetching. -/
def prefetchRecencySkip (now : Int) (inst : ClientInstance) : Bool :=
  match inst.updatedAt with
  | some u => decide (now - PREFETCH_CUTOFF_SECONDS < u)
  | none => false

/-- Append a row to its invoice's group, preserving first-appearance
order (`defaultdict(list)`, client.py:229-238). -/
def addToGroup : List (Int × List Json) → Int → Json → List (Int × List Json)
  | [], invoiceId, row => [(invoiceId, [row])]
  | (k, items) :: rest, invoiceId, row =>
    if k = invoiceId then (k, items ++ [row]) :: rest
    else (k, items) :: addToGroup rest invoiceId row

/-- Group the fetched rows by their `invoice_id` field
(client.py:229-238).  The `from_dict`/`__dict__` round-trip (which renames
keys via `clean_key` and strips private attributes) is modelled as the raw
row payload, and the group key as the integer `invoice_id`: the prefetch
filters on `invoice_id_not_null` and the vendor's line-item payloads carry
integer invoice ids. -/
def groupByInvoiceId (rows : List Json) : List (Int × List Json) :=
  rows.foldl
    (fun acc row =>
      match row with
      | .obj entries =>
        match entries.lookup "invoice_id" with
        | some (.num invoiceId) => addToGroup acc invoiceId row
        | _ => acc
      | _ => acc) []

/-- One invoice's page-chunked cache entries (client.py:240-262): the
items are split into fixed 100-row pages (`total_pages = ceil(n / 100)`),
each stored with synthesized pagination metadata under the same key
builder `fetch_from_api` uses, with a `page` param only beyond page 1. -/
def lineItemGroupEntries (invoiceId : Int) (items : List Json) :
    List (String × CacheValue) :=
  let totalEntries := items.length
  let totalPages := (totalEntries + 99) / 100
  (List.range totalPages).map (fun p0 =>
    let chunk := (items.drop (p0 * 100)).take 100
    let meta : Json := .obj [("page", .num ((p0 : Int) + 1)),
      ("per_page", .num 100), ("total_entries", .num (totalEntries : Int)),
      ("total_pages", .num (totalPages : Int))]
    let params : QueryParams :=
      if p0 = 0 then [("invoice_id", .num invoiceId)]
      else [("invoice_id", .num invoiceId), ("page", .num ((p0 : Int) + 1))]
    (listCacheKey "line_item" params, CacheValue.listResult chunk (some meta)))

/-- Seed the shared cache with every invoice's per-page entries
(client.py:240-262); an overwritten key behaves like the Python dict
assignment because the lookup takes the first match. -/
def seedLineItemCache (rows : List Json) (s : SharedState) : SharedState :=
  { s with cache :=
      ((groupByInvoiceId rows).map
        (fun g => lineItemGroupEntries g.1 g.2)).flatten ++ s.cache }

/-- `Client.prefetch_line_items` (client.py:214-264): return immediately
when the per-instance flag is set, or when `updated_at` is truthy and
newer than the 52-week cutoff; otherwise drain
`get_model(LineItem, params={"invoice_id_not_null": "true"})` (a paginated
sequence of `fetch_from_api` network requests), group the rows by invoice,
seed the shared cache with per-invoice per-page entries, and set the
flag. -/
def prefetchLineItems (net : Network) (now : Int) (fuel : Nat)
    (inst : ClientInstance) (s : SharedState) :
    Except String (ClientInstance × SharedState) :=
  if inst.hasLineItemInCache = true then .ok (inst, s)
  else if prefetchRecencySkip now inst = true then .ok (inst, s)
  else
    match getModelPageLoop net inst "line_item"
        [("invoice_id_not_null", .str "true")] fuel 1 s with
    | .error e => .error e
    | .ok (rows, s1) =>
      .ok ({ inst with hasLineItemInCache := true }, seedLineItemCache rows s1)

/-- The prefetch branch at the top of `fetch_from_api_by_id`
(client.py:320-321): `prefetch_line_items` runs only when the model is
named `LineItem` and comes from the invoice module
(`"invoice" in model.__module__`, the `fromInvoiceModule` flag). -/
def byIdPrefetchStep (net : Network) (now : Int) (fuel : Nat)
    (inst : ClientInstance) (modelName : String) (fromInvoiceModule : Bool)
    (s : SharedState) : Except String (ClientInstance × SharedState) :=
  if modelName = "LineItem" ∧ fromInvoiceModule = true then
    prefetchLineItems net now fuel inst s
  else .ok (inst, s)

/-- The prefetch branch of `fetch_from_api_by_id` performs no work: the
model is not the invoice-module `LineItem` (client.py:320), the
per-instance flag is already set (client.py:215-216), or `updated_at` is
within the 52-week cutoff (client.py:217-223). -/
def prefetchIsNoop (now : Int) (inst : ClientInstance) (modelName : String)
    (fromInvoiceModule : Bool) : Prop :=
  ¬(modelName = "LineItem" ∧ fromInvoiceModule = true) ∨
    inst.hasLineItemInCache = true ∨ prefetchRecencySkip now inst = true

/-- `Client.fetch_from_api_by_id` (client.py:317-364): first the invoice
line-item prefetch branch (client.py:320-321), then serve a cached single
object; otherwise issue one network request for
`{base}/{snake_case(name)}s/{id}`, locate the object under the first of
the keys `[snake_case(name), name.lower()]`, reject an empty (falsy) or
non-object payload, cache and return it.  `modelName` is the Python class
name (CamelCase); `now` and `fuel` parameterize the prefetch (see
`prefetchLineItems`).  Returns the (possibly flag-updated) instance with
the payload and the new shared state. -/
def fetchFromApiById (net : Network) (now : Int) (fuel : Nat)
    (inst : ClientInstance) (modelName : String) (fromInvoiceModule : Bool)
    (instanceId : Int) (s : SharedState) :
    Except String (Json × ClientInstance × SharedState) :=
  match byIdPrefetchStep net now fuel inst modelName fromInvoiceModule s with
  | .error e => .error e
  | .ok (inst1, s0) =>
    let cacheKey := pyLower modelName ++ "_" ++ toString instanceId
    match s0.cache.lookup cacheKey with
    | some (CacheValue.single payload) =>
      if payload.isObj then .ok (payload, inst1, s0)
      else .error "Unexpected cache payload type"
    | some (CacheValue.listResult _ _) => .error "Unexpected cache payload type"
    | none =>
      let payload :=
        net (inst.baseUrl ++ "/" ++ snakeCase modelName ++ "s/"
              ++ toString instanceId) []
      let s1 : SharedState := { s0 with networkCalls := s0.networkCalls + 1 }
      match payload with
      | .obj entries =>
        let located :=
          match entries.lookup (snakeCase modelName) with
          | some found => some found
          | none => entries.lookup (pyLower modelName)
        match located with
        | none => .error "Could not locate model payload"
        | some found =>
          if found.falsy then .error "Could not find model with id"
          else
            match found with
            | .obj foundEntries =>
              let value : Json := .obj foundEntries
              .ok (value, inst1,
                { s1 with
                  cache := (cacheKey, CacheValue.single value) :: s1.cache })
            | _ => .error "Invalid payload type, expected object"
      | _ => .error "Unexpected payload type for id request"

/-- `Client.clear_cache` (client.py:193-195): empties the shared `_cache`
dict in place (and resets the per-instance line-item prefetch flag, not
modelled here).  The `_request_timestamps` deque is not touched. -/
def clearCache (s : SharedState) : SharedState := { s with cache := [] }

/-! ## Pagination (`Client.get_model`, client.py:366-403) -/

/-- `BASELINE_UPDATED_AT = datetime(2010, 1, 1, tzinfo=timezone.utc)`
(import_from_repairshopr.py:34), as Unix seconds. -/
def BASELINE_UPDATED_AT : Int := 1262304000

/-- The `num_last_pages` gate at the top of `Command.handle_model`
(import_from_repairshopr.py:391-395): the tail window is dropped (forcing
a full scan) when no previous successful sync timestamp exists or it
predates `BASELINE_UPDATED_AT`. -/
def effectiveNumLastPages (lastUpdatedAt : Option Int)
    (numLastPages : Option Int) : Option Int :=
  match lastUpdatedAt with
  | none => none
  | some t => if t < BASELINE_UPDATED_AT then none else numLastPages

/-- The page-iteration loop of `Client.get_model` (client.py:380-403),
specialized to runs where every fetch succeeds and returns the same
pagination metadata with `total_pages = totalPages`.  Emits the current
page, stops when `page >= total_pages`, and otherwise either performs the
one-time tail-window jump from page 1 to
`max(page + 1, max(1, total_pages - num_last_pages + 1))` or increments
the page by 1.  The Python guard `and num_last_pages` tests truthiness,
so both `None` and `0` disable the jump (`numLastPages.getD 0 ≠ 0`).
`fuel` is an upper bound on the remaining iterations. -/
def getModelPagesAux (totalPages : Int) (numLastPages : Option Int) :
    Nat → Int → List Int
  | 0, page => [page]
  | fuel + 1, page =>
    page ::
      (if totalPages ≤ page then []
       else if page = 1 ∧ 1 < totalPages ∧ numLastPages.getD 0 ≠ 0 then
         let startPage := max 1 (totalPages - numLastPages.getD 0 + 1)
         getModelPagesAux totalPages numLastPages fuel (max (page + 1) startPage)
       else getModelPagesAux totalPages numLastPages fuel (page + 1))

/-- The full sequence of pages `Client.get_model` requests: the loop starts
at page 1 (client.py:380). -/
def getModelPages (totalPages : Int) (numLastPages : Option Int) : List Int :=
  getModelPagesAux totalPages numLastPages (totalPages + 1).toNat 1

/-- The consecutive integer pages `lo, lo+1, ..., hi` (empty when
`hi < lo`); used to state the tail-window page sequence. -/
def intRange (lo hi : Int) : List Int :=
  (List.range (hi + 1 - lo).toNat).map (fun i : Nat => lo + (i : Int))

/-! ## Datetime coercion (`repairshopr_api/utils/datetime.py`) -/

/-- Python `str.strip()` on the character list: drop leading and trailing
whitespace (datetime.py:12). -/
def pyStripChars (cs : List Char) : List Char :=
  ((cs.dropWhile Char.isWhitespace).reverse.dropWhile Char.isWhitespace).reverse

/-- Structural-recursion worker for `replaceAllChars`: `fuel` bounds the
number of scan steps; each step consumes at least one character, so fuel
equal to the input length is always sufficient. -/
def replaceAllCharsAux (pattern repl : List Char) : Nat → List Char → List Char
  | _, [] => []
  | 0, cs => cs
  | fuel + 1, c :: rest =>
    if pattern.isPrefixOf (c :: rest) && !pattern.isEmpty then
      repl ++ replaceAllCharsAux pattern repl fuel ((c :: rest).drop pattern.length)
    else c :: replaceAllCharsAux pattern repl fuel rest

/-- Left-to-right, non-overlapping replacement of every occurrence of
`pattern` (non-empty) by `repl`: Python `str.replace` (datetime.py:15-16). -/
def replaceAllChars (pattern repl cs : List Char) : List Char :=
  replaceAllCharsAux pattern repl cs.length cs

/-- The `_TZ_WITHOUT_COLON_RE` substitution (datetime.py:7,18-19): when the
string ends in a sign followed by exactly four digits, insert a colon
before the last two digits. -/
def fixTzNoColonChars (cs : List Char) : List Char :=
  let n := cs.length
  if 5 ≤ n then
    match cs.drop (n - 5) with
    | [sign, d1, d2, d3, d4] =>
      if (sign = '+' || sign = '-') && d1.isDigit && d2.isDigit && d3.isDigit
          && d4.isDigit then
        cs.take (n - 2) ++ [':', d3, d4]
      else cs
    | _ => cs
  else cs

/-- Structural-recursion worker for `truncExcessMicros`: `fuel` bounds the
number of scan steps; each step consumes at least one character, so fuel
equal to the input length is always sufficient. -/
def truncExcessMicrosAux : Nat → List Char → List Char
  | _, [] => []
  | 0, cs => cs
  | fuel + 1, c :: rest =>
    if c = '.' then
      let ds := rest.takeWhile Char.isDigit
      if 6 < ds.length then
        (c :: ds.take 6) ++ truncExcessMicrosAux fuel (rest.drop ds.length)
      else c :: truncExcessMicrosAux fuel rest
    else c :: truncExcessMicrosAux fuel rest

/-- The `_EXCESS_MICROS_RE` substitution (datetime.py:8,23): every `.`
followed by more than six digits keeps only the first six digits. -/
def truncExcessMicros (cs : List Char) : List Char :=
  truncExcessMicrosAux cs.length cs

/-- `_normalize_datetime_string` (datetime.py:11-24): strip, map a trailing
`Z`/`z` to `+00:00`, replace `" UTC"` and `" GMT"` by `+00:00`, insert the
missing colon in a trailing numeric offset, and truncate fractional
seconds beyond six digits. -/
def normalizeDatetimeChars (value : List Char) : List Char :=
  let n0 := pyStripChars value
  let n1 :=
    match n0.getLast? with
    | some 'Z' => n0.dropLast ++ "+00:00".toList
    | some 'z' => n0.dropLast ++ "+00:00".toList
    | _ => n0
  let n2 := replaceAllChars " UTC".toList "+00:00".toList n1
  let n3 := replaceAllChars " GMT".toList "+00:00".toList n2
  truncExcessMicros (fixTzNoColonChars n3)

/-- A `datetime.datetime` value as produced by `fromisoformat`: naive when
`utcOffsetMinutes = none`, otherwise aware with the given fixed offset. -/
structure PyDateTime where
  year : Nat
  month : Nat
  day : Nat
  hour : Nat
  minute : Nat
  second : Nat
  microsecond : Nat
  utcOffsetMinutes : Option Int
  deriving Repr, DecidableEq

/-- Numeric value of a digit string. -/
def digitsToNat (ds : List Char) : Nat :=
  ds.foldl (fun acc c => acc * 10 + (c.toNat - '0'.toNat)) 0

/-- Read exactly `n` digits; return their value and the rest. -/
def takeDigits (n : Nat) (cs : List Char) : Option (Nat × List Char) :=
  let ds := cs.take n
  if ds.length = n && ds.all Char.isDigit then some (digitsToNat ds, cs.drop n)
  else none

/-- Gregorian leap-year rule, as validated by `datetime`. -/
def isLeapYear (y : Nat) : Bool :=
  y % 4 = 0 && (y % 100 != 0 || y % 400 = 0)

/-- Days in a month, as validated by `datetime`. -/
def daysInMonth (y m : Nat) : Nat :=
  if m = 2 then (if isLeapYear y then 29 else 28)
  else if m = 4 || m = 6 || m = 9 || m = 11 then 30
  else 31

/-- Trailing UTC-offset parse of the `fromisoformat` model: empty means a
naive result; otherwise a sign, two hour digits, a colon and two minute
digits ending the string. -/
def parseOffsetTail : List Char → Option (Option Int)
  | [] => some none
  | sign :: rest =>
    if sign = '+' || sign = '-' then
      match takeDigits 2 rest with
      | some (hh, ':' :: r2) =>
        match takeDigits 2 r2 with
        | some (mm, []) =>
          if hh ≤ 23 && mm ≤ 59 then
            some (some ((if sign = '-' then -1 else 1) * (hh * 60 + mm : Nat)))
          else none
        | _ => none
      | _ => none
    else none

/-- Fractional-second parse of the `fromisoformat` model: one to six
digits, scaled to microseconds. -/
def parseFractionTail (cs : List Char) : Option (Nat × List Char) :=
  let ds := cs.takeWhile Char.isDigit
  if 1 ≤ ds.length && ds.length ≤ 6 then
    some (digitsToNat ds * 10 ^ (6 - ds.length), cs.drop ds.length)
  else none

/-- Time-of-day parse of the `fromisoformat` model: `HH:MM:SS`, an optional
`.`-fraction, then the offset tail. -/
def parseTimeTail (cs : List Char) :
    Option (Nat × Nat × Nat × Nat × Option Int) :=
  match takeDigits 2 cs with
  | some (hh, ':' :: r1) =>
    match takeDigits 2 r1 with
    | some (mm, ':' :: r2) =>
      match takeDigits 2 r2 with
      | some (ss, r3) =>
        if hh ≤ 23 && mm ≤ 59 && ss ≤ 59 then
          match r3 with
          | '.' :: fr =>
            match parseFractionTail fr with
            | some (micro, r4) =>
              (parseOffsetTail r4).map (fun off => (hh, mm, ss, micro, off))
            | none => none
          | rest => (parseOffsetTail rest).map (fun off => (hh, mm, ss, 0, off))
        else none
      | _ => none
    | _ => none
  | _ => none

/-- Model of CPython `datetime.fromisoformat`, the stdlib collaborator
called at datetime.py:38: a `YYYY-MM-DD` date with validated ranges,
either ending the string (midnight, naive) or followed by one separator
character (any single character, as in CPython) and a `HH:MM:SS` time with
optional fraction of one to six digits and optional `±HH:MM` UTC offset. -/
def fromIsoFormat (cs : List Char) : Option PyDateTime :=
  match takeDigits 4 cs with
  | some (y, '-' :: r1) =>
    match takeDigits 2 r1 with
    | some (mo, '-' :: r2) =>
      match takeDigits 2 r2 with
      | some (d, r3) =>
        if 1 ≤ mo && mo ≤ 12 && 1 ≤ d && d ≤ daysInMonth y mo then
          match r3 with
          | [] => some ⟨y, mo, d, 0, 0, 0, 0, none⟩
          | _ :: timeRest =>
            (parseTimeTail timeRest).map
              (fun t => ⟨y, mo, d, t.1, t.2.1, t.2.2.1, t.2.2.2.1, t.2.2.2.2⟩)
        else none
      | _ => none
    | _ => none
  | _ => none

/-- Python `str.replace(" ", "T", 1)` (datetime.py:34): replace the first
space only. -/
def replaceFirstSpaceWithT : List Char → List Char
  | [] => []
  | ' ' :: rest => 'T' :: rest
  | c :: rest => c :: replaceFirstSpaceWithT rest

/-- `parse_datetime` (datetime.py:27-41): normalize, then try
`fromisoformat` on the normalized string and, when it contains a space, on
the string with its first space turned into `T`; `None` when every
candidate fails. -/
def parseDatetime (value : String) : Option PyDateTime :=
  let normalized := normalizeDatetimeChars value.toList
  match fromIsoFormat normalized with
  | some dt => some dt
  | none =>
    if normalized.contains ' ' then fromIsoFormat (replaceFirstSpaceWithT normalized)
    else none

/-- Outcome of the datetime branch of `BaseModel.from_dict` for one string
field value. -/
inductive FieldValueResult where
  | kept (s : String)
  | parsedDatetime (dt : PyDateTime)
  deriving Repr, DecidableEq

/-- The datetime branch of `BaseModel.from_dict` (model.py:42-45) for a
string value on a datetime-accepting field: when `parse_datetime` returns
a value it replaces the string, otherwise the original string is kept on
the record unchanged (no drop, no raise). -/
def coerceDatetimeField (value : String) : FieldValueResult :=
  match parseDatetime value with
  | some dt => .parsedDatetime dt
  | none => .kept value

/-! ## Status payload (`sync_status.py`, `Command._build_payload`) -/

/-- The columns of the persisted `SyncStatus` row that `_build_payload`
computes with (sync_status.py:33-92); timestamps are Unix seconds, and the
fields merely passed through into the payload are omitted. -/
structure SyncStatusRow where
  status : String
  cycleStartedAt : Option Int
  cycleFinishedAt : Option Int
  lastHeartbeat : Option Int
  deriving Repr, DecidableEq

/-- The computed part of the JSON payload of `Command._build_payload`
(sync_status.py:33-92). -/
structure StatusPayload where
  status : String
  cycleAgeSeconds : Option Int
  heartbeatAgeSeconds : Option Int
  isStale : Bool
  deriving Repr, DecidableEq

/-- `Command._build_payload` (sync_status.py:33-92): with no status row the
payload is `unknown`/not-stale; otherwise `cycle_age_seconds` is measured
against the current time while running (else against `cycle_finished_at`
falling back to the current time), both ages are clamped with `max(0, ·)`,
and `is_stale` is `status == "running" and heartbeat_age is not None and
0 < threshold < heartbeat_age`. -/
def buildStatusPayload (row : Option SyncStatusRow) (currentTime : Int)
    (staleThresholdSeconds : Int) : StatusPayload :=
  match row with
  | none =>
    { status := "unknown", cycleAgeSeconds := none, heartbeatAgeSeconds := none,
      isStale := false }
  | some r =>
    let cycleAgeSeconds :=
      match r.cycleStartedAt with
      | none => none
      | some started =>
        let cycleEnd :=
          if r.status = "running" then currentTime
          else r.cycleFinishedAt.getD currentTime
        some (max 0 (cycleEnd - started))
    let heartbeatAgeSeconds :=
      r.lastHeartbeat.map (fun hb => max 0 (currentTime - hb))
    let isStale :=
      decide (r.status = "running") &&
        (match heartbeatAgeSeconds with
         | some age => decide (0 < staleThresholdSeconds) &&
             decide (staleThresholdSeconds < age)
         | none => false)
    { status := r.status, cycleAgeSeconds := cycleAgeSeconds,
      heartbeatAgeSeconds := heartbeatAgeSeconds, isStale := isStale }

/-! ## Identifier normalization and upsert skip
(`import_from_repairshopr.py`) -/

/-- `BaseModel.from_dict`'s identifier extraction (model.py:32):
`cls(id=data.get("id", 0))` — a missing `"id"` key never raises and
defaults to `0`. -/
def fromDictId (data : List (String × Json)) : Json :=
  (data.lookup "id").getD (Json.num 0)

/-- The nested-object payload `{"id": 0, **value}` (model.py:55): the
default id `0` is injected, with entries of `value` taking priority;
modelled so that key lookups agree with the Python dict. -/
def nestedPayloadWithId (value : List (String × Json)) : List (String × Json) :=
  match value.lookup "id" with
  | some _ => value
  | none => ("id", Json.num 0) :: value

/-- Python `str.isdigit()` restricted to ASCII digits (as produced by the
API payloads). -/
def pyIsDigitString (cs : List Char) : Bool := !cs.isEmpty && cs.all Char.isDigit

/-- `int(stripped_value)` for the strings `_normalize_identifier` accepts:
all digits, or a minus sign followed by digits. -/
def pyStrToInt (cs : List Char) : Int :=
  match cs with
  | '-' :: rest => -(digitsToNat rest : Int)
  | _ => (digitsToNat cs : Int)

/-- `_normalize_identifier` (import_from_repairshopr.py:122-135): `None`
for a missing value, an integer `0`, a string that strips to `""` or
`"0"`, or any unparsable value; an integer otherwise.  Python `bool` is an
`int` subclass, so `True` normalizes to `1` and `False` (equal to `0`) to
`None`. -/
def normalizeIdentifier : Json → Option Int
  | .null => none
  | .bool b => if b then some 1 else none
  | .num n => if n = 0 then none else some n
  | .str s =>
    let stripped := pyStripChars s.toList
    if stripped = "".toList || stripped = "0".toList then none
    else if pyIsDigitString stripped
        || (match stripped with
            | '-' :: rest => pyIsDigitString rest
            | _ => false) then
      some (pyStrToInt stripped)
    else none
  | .arr _ => none
  | .obj _ => none

/-- Persistence decision of `create_or_update_django_instance`
(import_from_repairshopr.py:215-235). -/
inductive UpsertResult where
  /-- `return None`: the record is silently dropped
  (import_from_repairshopr.py:219-227). -/
  | skipped
  /-- `objects.create(**field_data)`: auto primary key and no identifier
  (import_from_repairshopr.py:230-231). -/
  | created
  /-- `objects.update_or_create(defaults=field_data, id=lookup_identifier)`
  (import_from_repairshopr.py:233-235). -/
  | upserted (lookupId : Option Int)
  deriving Repr, DecidableEq

/-- The identifier path of `create_or_update_django_instance`
(import_from_repairshopr.py:215-235): normalize the instance's raw `id`;
with no usable identifier and a non-auto primary key the record is skipped
(`None` returned, nothing written); with an auto primary key it is
created; otherwise it is upserted by id. -/
def createOrUpdateIdPath (rawId : Json) (hasPrimaryKey isAutoPrimaryKey : Bool) :
    UpsertResult :=
  let lookupId := normalizeIdentifier rawId
  if lookupId = none && hasPrimaryKey && !isAutoPrimaryKey then .skipped
  else if lookupId = none && isAutoPrimaryKey then .created
  else .upserted lookupId

/-! ## Sync cycle orchestration (`import_from_repairshopr.py`,
`Command.validate_sync_completeness` and `Command.handle`) -/

/-- `LINE_ITEM_PARITY_ABSOLUTE_TOLERANCE = 50`,
`LINE_ITEM_PARITY_RELATIVE_TOLERANCE = 0.005`
(import_from_repairshopr.py:35-36); `_line_item_allowed_delta`
(import_from_repairshopr.py:494-496): `max(50, int(expected * 0.005))`,
with the float product modelled exactly (counts are non-negative, and
`int(·)` truncates like `Nat` division). -/
def lineItemAllowedDelta (expectedCount : Nat) : Nat :=
  max 50 (expectedCount * 5 / 1000)

/-- Outcome of `_fetch_line_item_total_entries`
(import_from_repairshopr.py:513-519) for one line-item family, as consumed
by the parity loop: the fetch raised one of the caught error types, the
metadata lacked a usable `total_entries`, or a vendor-reported total. -/
inductive FetchTotalsOutcome where
  | raised
  | missingTotal
  | total (expected : Nat)
  deriving Repr, DecidableEq

/-- Inputs of one aggregate-parity comparison
(import_from_repairshopr.py:651-704): the vendor fetch outcome and the
local database count. -/
structure ParityFamilyInput where
  fetchOutcome : FetchTotalsOutcome
  dbCount : Nat
  deriving Repr, DecidableEq

/-- Outcome of `_evaluate_invoice_line_item_sample_parity`
(import_from_repairshopr.py:598-630): either it raised one of the caught
error types, or it reported a mismatch count. -/
structure SampleOutcome where
  raised : Bool
  mismatchCount : Nat
  deriving Repr, DecidableEq

/-- Whether one family's aggregate comparison exceeds its tolerance band
(`abs(delta) > allowed_delta`, import_from_repairshopr.py:680-696); fetch
failures and missing totals are logged and skipped (`continue`). -/
def familyViolation (fam : ParityFamilyInput) : Bool :=
  match fam.fetchOutcome with
  | .raised => false
  | .missingTotal => false
  | .total expected =>
    decide ((lineItemAllowedDelta expected : Int)
      < ((fam.dbCount : Int) - (expected : Int)).natAbs)

/-- The repair trigger of the invoice aggregate comparison
(import_from_repairshopr.py:701-702): a violation with `delta < 0`. -/
def familyNeedsRepair (fam : ParityFamilyInput) : Bool :=
  match fam.fetchOutcome with
  | .total expected =>
    familyViolation fam && decide ((fam.dbCount : Int) < (expected : Int))
  | _ => false

/-- The observable outcome of `Command.validate_sync_completeness`
(import_from_repairshopr.py:632-767).  The function catches every error of
its vendor fetches (lines 658-670, 715-733), logs tolerance violations
(696-702, 747-753), and on a full sync with a repair-needing violation
logs a deferral to the dedicated reconcile command (755-767).  It always
returns normally: no parity condition raises. -/
structure ValidationReport where
  invoiceViolation : Bool
  estimateViolation : Bool
  sampleViolation : Bool
  needsInvoiceLineItemRepair : Bool
  repairDeferredLogged : Bool
  deriving Repr, DecidableEq

/-- `Command.validate_sync_completeness` (import_from_repairshopr.py:632-767):
aggregate tolerance checks for the invoice and estimate line-item
families, then the sampled per-invoice comparison with
`allowed_sample_mismatches = 1` on a full sync and `2` on an incremental
one; the full-sync repair branch only logs. -/
def validateSyncCompleteness (fullSync : Bool)
    (invoiceFamily estimateFamily : ParityFamilyInput)
    (sample : SampleOutcome) : ValidationReport :=
  let invoiceViolation := familyViolation invoiceFamily
  let estimateViolation := familyViolation estimateFamily
  let allowedSampleMismatches : Nat := if fullSync then 1 else 2
  let sampleViolation :=
    !sample.raised && decide (allowedSampleMismatches < sample.mismatchCount)
  let needsRepair := familyNeedsRepair invoiceFamily || sampleViolation
  { invoiceViolation := invoiceViolation,
    estimateViolation := estimateViolation,
    sampleViolation := sampleViolation,
    needsInvoiceLineItemRepair := needsRepair,
    repairDeferredLogged := fullSync && needsRepair }

/-- The committed sync settings (`settings.django.last_updated_at`,
persisted by `settings.save()`), as Unix seconds. -/
structure SyncSettings where
  lastUpdatedAt : Option Int
  deriving Repr, DecidableEq

/-- `Command._is_full_sync_run` (import_from_repairshopr.py:498-504): a
full sync when no baseline exists or it predates `BASELINE_UPDATED_AT`. -/
def isFullSyncRun (lastUpdatedAt : Option Int) : Bool :=
  match lastUpdatedAt with
  | none => true
  | some t => decide (t < BASELINE_UPDATED_AT)

/-- `Command._mark_sync_cycle_finished` (import_from_repairshopr.py:359-366):
`"failed" if error_message else "success"` — the branch tests Python
truthiness, so both `None` and the empty string yield `"success"`. -/
def markSyncCycleFinishedStatus (errorMessage : Option String) : String :=
  match errorMessage with
  | none => "success"
  | some msg => if msg = "" then "success" else "failed"

/-- First stringified exception among the per-model import steps, in the
declared model order; `none` when every step returned normally. -/
def firstError : List (Except String Unit) → Option String
  | [] => none
  | .ok _ :: rest => firstError rest
  | .error msg :: _ => some msg

/-- The externally observable outcome of one `Command.handle` cycle: the
persisted status and `last_error`, the committed settings, and the
validation report (when validation ran). -/
structure CycleOutcome where
  status : String
  lastError : Option String
  settingsAfter : SyncSettings
  validation : Option ValidationReport
  deriving Repr, DecidableEq

/-- `Command.handle` (import_from_repairshopr.py:775-825): run the
per-model imports in declared order (`modelResults` lists each
`handle_model` call's outcome; the first raise aborts the loop), then
`sync_ticket_settings` (catches its own errors, lines 827-838), then
`validate_sync_completeness` (always returns), then commit
`settings.django.last_updated_at = start_updated_at` and mark the cycle
finished with no error; the `except` branch (lines 819-821) marks the
cycle finished with `str(exc)` and leaves the committed settings
untouched. -/
def runHandle (prev : SyncSettings) (startTime : Int)
    (modelResults : List (Except String Unit))
    (invoiceFamily estimateFamily : ParityFamilyInput)
    (sample : SampleOutcome) : CycleOutcome :=
  let fullSync := isFullSyncRun prev.lastUpdatedAt
  match firstError modelResults with
  | some msg =>
    { status := markSyncCycleFinishedStatus (some msg), lastError := some msg,
      settingsAfter := prev, validation := none }
  | none =>
    let report := validateSyncCompleteness fullSync invoiceFamily
      estimateFamily sample
    { status := markSyncCycleFinishedStatus none, lastError := none,
      settingsAfter := { lastUpdatedAt := some startTime },
      validation := some report }

/-! # Theorems -/

/-- **C8**.  Datetime coercion parses, without raising, strings with a
trailing `Z`, numeric UTC offsets with or without a colon, `" UTC"`/`" GMT"`
suffixes, a space instead of the date/time separator, and fractional
seconds beyond 6 digits (truncated to 6); and a string field value that
cannot be parsed is kept on the resulting record unchanged rather than
dropped or raising. -/
theorem datetime_coercion_tolerance :
    parseDatetime "2026-01-01T00:00:00Z" = some ⟨2026, 1, 1, 0, 0, 0, 0, some 0⟩ ∧
    parseDatetime "2026-01-01T00:00:00+0000" = some ⟨2026, 1, 1, 0, 0, 0, 0, some 0⟩ ∧
    parseDatetime "2026-01-01 00:00:00+00:00" = some ⟨2026, 1, 1, 0, 0, 0, 0, some 0⟩ ∧
    parseDatetime "2026-01-01T00:00:00 UTC" = some ⟨2026, 1, 1, 0, 0, 0, 0, some 0⟩ ∧
    parseDatetime "2026-01-01T00:00:00 GMT" = some ⟨2026, 1, 1, 0, 0, 0, 0, some 0⟩ ∧
    parseDatetime "2026-01-01T00:00:00.123456789Z"
      = some ⟨2026, 1, 1, 0, 0, 0, 123456, some 0⟩ ∧
    parseDatetime "not a datetime" = none ∧
    coerceDatetimeField "not a datetime" = .kept "not a datetime" ∧
    coerceDatetimeField "2026-01-01T00:00:00Z"
      = .parsedDatetime ⟨2026, 1, 1, 0, 0, 0, 0, some 0⟩ := by
  decide

/-- **C9**.  For every persisted status row and every configured threshold,
the payload emitted by the `sync_status` command has
`heartbeat_age_seconds ≥ 0` and `cycle_age_seconds ≥ 0` whenever the ages
exist, and `is_stale` is true exactly when the stored status is
`"running"` and the heartbeat age strictly exceeds a positive configured
threshold. -/
theorem status_payload_ages_and_staleness (row : Option SyncStatusRow)
    (currentTime staleThresholdSeconds : Int) :
    (∀ a, (buildStatusPayload row currentTime staleThresholdSeconds).cycleAgeSeconds
        = some a → 0 ≤ a) ∧
    (∀ a, (buildStatusPayload row currentTime staleThresholdSeconds).heartbeatAgeSeconds
        = some a → 0 ≤ a) ∧
    ((buildStatusPayload row currentTime staleThresholdSeconds).isStale = true ↔
      ∃ r, row = some r ∧ r.status = "running" ∧
        ∃ a, (buildStatusPayload row currentTime
            staleThresholdSeconds).heartbeatAgeSeconds = some a ∧
          0 < staleThresholdSeconds ∧ staleThresholdSeconds < a) := by
  cases row with
  | none => simp [buildStatusPayload]
  | some r =>
    refine ⟨?_, ?_, ?_⟩
    · intro a ha
      simp only [buildStatusPayload] at ha
      cases hcs : r.cycleStartedAt with
      | none => rw [hcs] at ha; simp at ha
      | some started =>
        rw [hcs] at ha
        simp only [Option.some.injEq] at ha
        omega
    · intro a ha
      simp only [buildStatusPayload] at ha
      cases hhb : r.lastHeartbeat with
      | none => rw [hhb] at ha; simp at ha
      | some hb =>
        rw [hhb] at ha
        simp only [Option.map_some', Option.some.injEq] at ha
        omega
    · cases hhb : r.lastHeartbeat with
      | none =>
        simp [buildStatusPayload, hhb]
      | some hb =>
        simp only [buildStatusPayload, hhb, Option.map_some', Bool.and_eq_true,
          decide_eq_true_eq, Option.some.injEq]
        constructor
        · rintro ⟨hrun, hthr, hage⟩
          exact ⟨r, rfl, hrun, max 0 (currentTime - hb), rfl, hthr, hage⟩
        · rintro ⟨r2, hr2, hrun, a, ha, hthr, hage⟩
          cases hr2
          cases ha
          exact ⟨hrun, hthr, hage⟩

/-- **C9 witness**: a concrete running row whose heartbeat age 40 exceeds
the positive threshold 10 is reported stale, via the theorem's
characterization. -/
theorem status_payload_ages_and_staleness_witness :
    (buildStatusPayload (some ⟨"running", some 10, none, some 60⟩) 100 10).isStale
      = true :=
  (status_payload_ages_and_staleness
      (some ⟨"running", some 10, none, some 60⟩) 100 10).2.2.mpr
    ⟨⟨"running", some 10, none, some 60⟩, rfl, rfl, 40, rfl, by norm_num, by norm_num⟩

/-- **C10**.  A payload without an `"id"` key never raises: `from_dict`
defaults the id to `0` and injects a default id `0` into nested object
payloads; the import upsert normalizes identifiers that are `0`, `"0"`,
empty or whitespace-only strings (or `None`) to `None`, and with a
non-auto primary key such a record is skipped (`None` returned) rather
than written or rejected with an error. -/
theorem missing_or_zero_identifier_dropped :
    (∀ data : List (String × Json), data.lookup "id" = none →
      fromDictId data = Json.num 0) ∧
    (∀ value : List (String × Json), value.lookup "id" = none →
      (nestedPayloadWithId value).lookup "id" = some (Json.num 0)) ∧
    normalizeIdentifier (Json.num 0) = none ∧
    normalizeIdentifier (Json.str "0") = none ∧
    normalizeIdentifier (Json.str "") = none ∧
    normalizeIdentifier (Json.str "   ") = none ∧
    normalizeIdentifier Json.null = none ∧
    (∀ rawId : Json, normalizeIdentifier rawId = none →
      createOrUpdateIdPath rawId true false = .skipped) := by
  refine ⟨?_, ?_, by decide, by decide, by decide, by decide, by decide, ?_⟩
  · intro data h
    simp [fromDictId, h]
  · intro value h
    simp [nestedPayloadWithId, h, List.lookup]
  · intro rawId h
    simp [createOrUpdateIdPath, h]

/-- **C10 witness**: a concrete payload without `"id"` defaults to id `0`,
and a concrete zero identifier is skipped by the non-auto-primary-key
upsert. -/
theorem missing_or_zero_identifier_dropped_witness :
    fromDictId [("name", Json.str "x")] = Json.num 0 ∧
    createOrUpdateIdPath (Json.num 0) true false = .skipped :=
  ⟨missing_or_zero_identifier_dropped.1 [("name", Json.str "x")] rfl,
   missing_or_zero_identifier_dropped.2.2.2.2.2.2.2 (Json.num 0) rfl⟩

/-- **C1 counterexample**: a full-sync cycle (no previous baseline) whose
invoice aggregate parity is violated far beyond tolerance
(expected 1000, local 0) still ends with status `"success"` and an empty
`last_error` — `validate_sync_completeness` only logs and defers. -/
theorem full_sync_parity_violation_cycle_succeeds_counterexample :
    isFullSyncRun (none : Option Int) = true ∧
    familyViolation ⟨.total 1000, 0⟩ = true ∧
    (runHandle ⟨none⟩ 1700000000 [.ok ()] ⟨.total 1000, 0⟩ ⟨.missingTotal, 5⟩
        ⟨false, 0⟩).status = "success" ∧
    (runHandle ⟨none⟩ 1700000000 [.ok ()] ⟨.total 1000, 0⟩ ⟨.missingTotal, 5⟩
        ⟨false, 0⟩).lastError = none := by
  decide

/-- **C1 amended**: a parity violation never fails the cycle in either
mode: every cycle whose model-import steps all return normally ends with
status `"success"` and no `last_error`, whatever the parity outcomes; a
full-sync cycle with a repair-needing violation logs the deferred-repair
event (and an incremental one does not), instead of failing. -/
theorem parity_violation_never_fails_cycle (prev : SyncSettings)
    (startTime : Int) (modelResults : List (Except String Unit))
    (invoiceFamily estimateFamily : ParityFamilyInput) (sample : SampleOutcome)
    (hok : firstError modelResults = none) :
    (runHandle prev startTime modelResults invoiceFamily estimateFamily
        sample).status = "success" ∧
    (runHandle prev startTime modelResults invoiceFamily estimateFamily
        sample).lastError = none ∧
    (runHandle prev startTime modelResults invoiceFamily estimateFamily
        sample).validation = some (validateSyncCompleteness
          (isFullSyncRun prev.lastUpdatedAt) invoiceFamily estimateFamily
          sample) ∧
    (validateSyncCompleteness (isFullSyncRun prev.lastUpdatedAt)
        invoiceFamily estimateFamily sample).repairDeferredLogged
      = (isFullSyncRun prev.lastUpdatedAt &&
          (validateSyncCompleteness (isFullSyncRun prev.lastUpdatedAt)
            invoiceFamily estimateFamily sample).needsInvoiceLineItemRepair) := by
  refine ⟨?_, ?_, ?_, rfl⟩ <;>
    simp [runHandle, hok, markSyncCycleFinishedStatus]

/-- **C1 amended witness**: the amended theorem at the counterexample's
inputs. -/
theorem parity_violation_never_fails_cycle_witness :
    (runHandle ⟨none⟩ 1700000000 [.ok ()] ⟨.total 1000, 0⟩ ⟨.missingTotal, 5⟩
        ⟨false, 0⟩).status = "success" :=
  (parity_violation_never_fails_cycle ⟨none⟩ 1700000000 [.ok ()]
    ⟨.total 1000, 0⟩ ⟨.missingTotal, 5⟩ ⟨false, 0⟩ rfl).1

/-- **C2 counterexample**: an import step that raises an exception whose
`str(exc)` is the empty string ends the cycle with status `"success"`
(`"failed" if error_message else "success"` tests truthiness), refuting
"the cycle is marked failed" as universally stated — although the baseline
is indeed left unchanged. -/
theorem empty_error_message_cycle_status_counterexample :
    (runHandle ⟨some 1600000000⟩ 1700000000 [Except.error ""]
        ⟨.missingTotal, 0⟩ ⟨.missingTotal, 0⟩ ⟨false, 0⟩).status = "success" ∧
    (runHandle ⟨some 1600000000⟩ 1700000000 [Except.error ""]
        ⟨.missingTotal, 0⟩ ⟨.missingTotal, 0⟩ ⟨false, 0⟩).settingsAfter
      = ⟨some 1600000000⟩ ∧
    (runHandle ⟨some 1600000000⟩ 1700000000 [Except.error ""]
        ⟨.missingTotal, 0⟩ ⟨.missingTotal, 0⟩ ⟨false, 0⟩).lastError = some "" := by
  decide

/-- **C2 amended**: the committed baseline is set to the cycle's start
time exactly when every step before the commit returns normally (all
models processed and validation finished); when any step raises, the
baseline is left unchanged (the next attempt resumes from the previous
committed mark), `last_error` records the stringified exception, and the
cycle is marked `"failed"` whenever that string is non-empty (an
empty-string exception text is recorded with status `"success"`). -/
theorem baseline_commit_only_after_validation (prev : SyncSettings)
    (startTime : Int) (modelResults : List (Except String Unit))
    (invoiceFamily estimateFamily : ParityFamilyInput)
    (sample : SampleOutcome) :
    (∀ msg, firstError modelResults = some msg →
      (runHandle prev startTime modelResults invoiceFamily estimateFamily
          sample).settingsAfter = prev ∧
      (runHandle prev startTime modelResults invoiceFamily estimateFamily
          sample).lastError = some msg ∧
      (runHandle prev startTime modelResults invoiceFamily estimateFamily
          sample).status = (if msg = "" then "success" else "failed")) ∧
    (firstError modelResults = none →
      (runHandle prev startTime modelResults invoiceFamily estimateFamily
          sample).settingsAfter = ⟨some startTime⟩ ∧
      (runHandle prev startTime modelResults invoiceFamily estimateFamily
          sample).status = "success" ∧
      (runHandle prev startTime modelResults invoiceFamily estimateFamily
          sample).lastError = none) := by
  constructor
  · intro msg h
    refine ⟨?_, ?_, ?_⟩ <;> simp [runHandle, h, markSyncCycleFinishedStatus]
  · intro h
    refine ⟨?_, ?_, ?_⟩ <;> simp [runHandle, h, markSyncCycleFinishedStatus]

/-- **C2 amended witness**: a concrete failing step with a non-empty
message leaves the baseline at the previous mark and marks the cycle
failed; a concrete clean cycle commits its start time. -/
theorem baseline_commit_only_after_validation_witness :
    ((runHandle ⟨some 1600000000⟩ 1700000000 [Except.error "boom"]
        ⟨.missingTotal, 0⟩ ⟨.missingTotal, 0⟩ ⟨false, 0⟩).settingsAfter
      = ⟨some 1600000000⟩ ∧
     (runHandle ⟨some 1600000000⟩ 1700000000 [Except.error "boom"]
        ⟨.missingTotal, 0⟩ ⟨.missingTotal, 0⟩ ⟨false, 0⟩).status = "failed") ∧
    (runHandle ⟨some 1600000000⟩ 1700000000 [Except.ok ()]
        ⟨.missingTotal, 0⟩ ⟨.missingTotal, 0⟩ ⟨false, 0⟩).settingsAfter
      = ⟨some 1700000000⟩ := by
  have h := baseline_commit_only_after_validation ⟨some 1600000000⟩ 1700000000
    [Except.error "boom"] ⟨.missingTotal, 0⟩ ⟨.missingTotal, 0⟩ ⟨false, 0⟩
  have h2 := baseline_commit_only_after_validation ⟨some 1600000000⟩ 1700000000
    [Except.ok ()] ⟨.missingTotal, 0⟩ ⟨.missingTotal, 0⟩ ⟨false, 0⟩
  have hfail := h.1 "boom" rfl
  refine ⟨⟨hfail.1, ?_⟩, (h2.2 rfl).1⟩
  rw [hfail.2.2]
  decide

/-- Every entry surviving the purge is at most 60 seconds old: the
`while ... popleft` loop drops the stale sorted prefix, and sortedness
carries the bound to the rest of the deque. -/
theorem clearOld_lower (now : Int) :
    ∀ w : List Int, w.Sorted (· ≤ ·) →
      ∀ t ∈ clearOldRequestTimestamps now w, now - 60 ≤ t := by
  intro w
  induction w with
  | nil => intro _ t ht; simp [clearOldRequestTimestamps] at ht
  | cons c rest ih =>
    intro hsort t ht
    rw [clearOldRequestTimestamps, List.dropWhile_cons] at ht
    by_cases hc : c < now - 60
    · rw [if_pos (by simpa using hc)] at ht
      exact ih (List.sorted_cons.mp hsort).2 t ht
    · rw [if_neg (by simpa using hc)] at ht
      rcases List.mem_cons.mp ht with rfl | hmem
      · omega
      · have := (List.sorted_cons.mp hsort).1 t hmem
        omega

/-- The purge is a sublist operation, so it preserves sortedness. -/
theorem clearOld_sorted (now : Int) (w : List Int) (hsort : w.Sorted (· ≤ ·)) :
    (clearOldRequestTimestamps now w).Sorted (· ≤ ·) :=
  List.Pairwise.sublist (List.dropWhile_sublist _) hsort

set_option maxRecDepth 8000 in
/-- **C4 counterexample**: with the window already holding exactly 150
recent entries (the configured cap), `_wait_for_rate_limit` does not sleep
(`len > REQUEST_LIMIT` is strict) and admits a 151st request whose window
then holds 151 entries all younger than 60 seconds. -/
theorem rate_limit_sleeps_only_above_cap_counterexample :
    (List.replicate 150 (0 : Int)).length = REQUEST_LIMIT ∧
    (waitForRateLimit 0 (List.replicate 150 (0 : Int))).slept = 0 ∧
    (waitForRateLimit 0 (List.replicate 150 (0 : Int))).window.length = 151 ∧
    (waitForRateLimit 0 (List.replicate 150 (0 : Int))).window.all
      (fun t =>
        (waitForRateLimit 0 (List.replicate 150 (0 : Int))).timeAfter - t < 60)
      = true := by
  decide

/-- **C4 amended**: every `_wait_for_rate_limit` call first purges entries
older than 60 seconds; after any call on a sorted window every remaining
entry is at most 60 seconds old; when at most `REQUEST_LIMIT` (150)
entries remain after the purge the call admits the request without
sleeping (so a 151st request enters a full window), and when strictly
more than 150 remain the call sleeps exactly until the oldest entry ages
out (`max 0 (60 - (now - oldest))`). -/
theorem rate_limit_purge_and_sleep_characterization (now : Int)
    (w : List Int) (hsort : w.Sorted (· ≤ ·)) :
    (∀ t ∈ (waitForRateLimit now w).window,
      (waitForRateLimit now w).timeAfter - t ≤ 60) ∧
    ((clearOldRequestTimestamps now w).length ≤ REQUEST_LIMIT →
      (waitForRateLimit now w).slept = 0 ∧
      (waitForRateLimit now w).timeAfter = now ∧
      (waitForRateLimit now w).window
        = clearOldRequestTimestamps now w ++ [now]) ∧
    (REQUEST_LIMIT < (clearOldRequestTimestamps now w).length →
      (waitForRateLimit now w).slept
        = max 0 (60 - (now - (clearOldRequestTimestamps now w).headD 0))) := by
  have hw1sorted : (clearOldRequestTimestamps now w).Sorted (· ≤ ·) :=
    clearOld_sorted now w hsort
  simp only [waitForRateLimit]
  split_ifs with h1 h2
  · -- more than the cap remained and the sleep duration is positive
    dsimp only
    refine ⟨?_, fun hle => absurd h1 (not_lt.mpr hle),
      fun _ => (max_eq_right h2.le).symm⟩
    intro t ht
    rcases List.mem_append.mp ht with hmem | hmem
    · have := clearOld_lower
        (now + (60 - (now - (clearOldRequestTimestamps now w).headD 0)))
        (clearOldRequestTimestamps now w) hw1sorted t hmem
      omega
    · simp only [List.mem_singleton] at hmem
      omega
  · -- more than the cap remained but the oldest is already 60s old
    dsimp only
    refine ⟨?_, fun hle => absurd h1 (not_lt.mpr hle),
      fun _ => (max_eq_left (not_lt.mp h2)).symm⟩
    intro t ht
    rcases List.mem_append.mp ht with hmem | hmem
    · have := clearOld_lower now (clearOldRequestTimestamps now w)
        hw1sorted t hmem
      omega
    · simp only [List.mem_singleton] at hmem
      omega
  · -- at most the cap remained: admit without sleeping
    dsimp only
    refine ⟨?_, fun _ => ⟨rfl, rfl, rfl⟩, fun hgt => absurd hgt (by omega)⟩
    intro t ht
    rcases List.mem_append.mp ht with hmem | hmem
    · have := clearOld_lower now w hsort t hmem
      omega
    · simp only [List.mem_singleton] at hmem
      omega

/-- **C4 amended witness**: the characterization applied to the empty
window at time 0 — the request is admitted with no sleep and the window
becomes `[0]`. -/
theorem rate_limit_purge_and_sleep_characterization_witness :
    (waitForRateLimit 0 ([] : List Int)).slept = 0 ∧
    (waitForRateLimit 0 ([] : List Int)).window = [0] := by
  have h := rate_limit_purge_and_sleep_characterization 0 [] (by simp)
  have h2 := (h.2.1 (by decide))
  exact ⟨h2.1, by rw [h2.2.2]; rfl⟩

/-- A one-element consecutive range. -/
theorem intRange_self (x : Int) : intRange x x = [x] := by
  have h : (x + 1 - x).toNat = 1 := by omega
  rw [intRange, h, List.range_succ, List.range_zero]
  simp

/-- Peeling the first page off a consecutive range. -/
theorem intRange_cons (lo hi : Int) (h : lo ≤ hi) :
    intRange lo hi = lo :: intRange (lo + 1) hi := by
  have h1 : (hi + 1 - lo).toNat = (hi + 1 - (lo + 1)).toNat + 1 := by omega
  have h2 : ((fun i : Nat => lo + (i : Int)) ∘ Nat.succ)
      = fun i : Nat => lo + 1 + (i : Int) := by
    funext i
    simp only [Function.comp_apply]
    push_cast
    ring
  simp only [intRange, h1, List.range_succ_eq_map, List.map_cons, List.map_map,
    h2]
  simp

/-- Once the loop of `Client.get_model` is past page 1, it increments the
page by 1 until `total_pages`, requesting exactly the consecutive pages up
to and including the last one. -/
theorem getModelPagesAux_run (T : Int) (nl : Option Int) :
    ∀ (fuel : Nat) (page : Int), 2 ≤ page → page ≤ T →
      T ≤ page + (fuel : Int) →
      getModelPagesAux T nl fuel page = intRange page T := by
  intro fuel
  induction fuel with
  | zero =>
    intro page h2 hle hfuel
    have hpt : page = T := by omega
    subst hpt
    simp [getModelPagesAux, intRange_self]
  | succ fuel ih =>
    intro page h2 hle hfuel
    by_cases hend : T ≤ page
    · have hpt : page = T := le_antisymm hle hend
      subst hpt
      simp [getModelPagesAux, intRange_self]
    · have hnot1 : ¬(page = 1 ∧ 1 < T ∧ nl.getD 0 ≠ 0) := by
        rintro ⟨rfl, -, -⟩; omega
      simp only [getModelPagesAux, if_neg hend, if_neg hnot1]
      rw [ih (page + 1) (by omega) (by omega) (by push_cast at hfuel ⊢; omega)]
      exact (intRange_cons page T hle).symm

/-- **C5**.  With the tail window active — `num_last_pages` supplied and
the last successful sync timestamp known and at/after the baseline
epoch — `get_model` requests page 1, then jumps to
`max(2, total_pages - num_last_pages + 1)`, then increments by 1 through
the last page. -/
theorem tail_window_page_sequence (T n ts : Int) (hT : 1 ≤ T) (hn : 1 ≤ n)
    (hts : BASELINE_UPDATED_AT ≤ ts) :
    effectiveNumLastPages (some ts) (some n) = some n ∧
    getModelPages T (effectiveNumLastPages (some ts) (some n))
      = 1 :: intRange (max 2 (T - n + 1)) T := by
  have hgate : effectiveNumLastPages (some ts) (some n) = some n := by
    simp [effectiveNumLastPages, not_lt.mpr hts]
  refine ⟨hgate, ?_⟩
  rw [hgate]
  by_cases hT1 : T = 1
  · subst hT1
    have hmax : (2:Int) ≤ max 2 (1 - n + 1) := le_max_left _ _
    have hrange : intRange (max 2 (1 - n + 1)) 1 = [] := by
      have hz : ((1:Int) + 1 - max 2 (1 - n + 1)).toNat = 0 := by omega
      rw [intRange, hz, List.range_zero, List.map_nil]
    rw [hrange]
    rw [getModelPages]
    norm_num [getModelPagesAux]
  · have hT2 : (2:Int) ≤ T := by omega
    have hfuel : (T + 1).toNat = T.toNat + 1 := by omega
    rw [getModelPages, hfuel]
    have hs : max ((1:Int) + 1) (max 1 (T - n + 1)) = max 2 (T - n + 1) := by
      have h12 : (1:Int) + 1 = 2 := by norm_num
      rw [h12, ← max_assoc]
      norm_num
    have hrun : getModelPagesAux T (some n) T.toNat
        (max ((1:Int) + 1) (max 1 (T - n + 1)))
        = intRange (max 2 (T - n + 1)) T := by
      rw [hs]
      refine getModelPagesAux_run T (some n) T.toNat (max 2 (T - n + 1))
        (le_max_left _ _) (max_le hT2 (by omega)) ?_
      have hcast : ((T.toNat : Int)) = T := Int.toNat_of_nonneg (by omega)
      rw [hcast]
      have := le_max_left (2:Int) (T - n + 1)
      omega
    simp only [getModelPagesAux, Option.getD_some]
    rw [if_neg (by omega : ¬ T ≤ (1:Int))]
    rw [if_pos (show True ∧ 1 < T ∧ n ≠ 0 from ⟨trivial, by omega, by omega⟩)]
    rw [hrun]

/-- **C5 witness**: with `total_pages = 5` and `num_last_pages = 2` and a
baseline-fresh sync timestamp, exactly pages `[1, 4, 5]` are requested. -/
theorem tail_window_page_sequence_witness :
    getModelPages 5 (effectiveNumLastPages (some BASELINE_UPDATED_AT) (some 2))
      = [1, 4, 5] := by
  have h := tail_window_page_sequence 5 2 BASELINE_UPDATED_AT
    (by norm_num) (by norm_num) le_rfl
  rw [h.2]
  decide

/-- Skipping a retryable prefix: when the first `k` attempts (starting at
`attempt`) all raise retryable errors and attempts remain, the loop
continues at attempt `attempt + k` with `k` fewer attempts allowed. -/
theorem retryLoop_skip (statuses : Nat → Nat) :
    ∀ (k attempt remaining : Nat), k < remaining →
      (∀ i, i < k → classifyStatus (statuses (attempt + i)) = .retryable) →
      retryLoop statuses attempt remaining
        = retryLoop statuses (attempt + k) (remaining - k) := by
  intro k
  induction k with
  | zero => intro attempt remaining _ _; simp
  | succ k ih =>
    intro attempt remaining hk hret
    match remaining, hk with
    | r + 1, hk =>
      have h0 : classifyStatus (statuses attempt) = .retryable := by
        have := hret 0 (Nat.succ_pos k)
        simpa using this
      have hrne : r ≠ 0 := by omega
      have hstep : retryLoop statuses attempt (r + 1)
          = retryLoop statuses (attempt + 1) r := by
        simp only [retryLoop, h0]
        rw [if_neg hrne]
      rw [hstep]
      have hrec := ih (attempt + 1) r (by omega) (fun i hi => by
        have := hret (i + 1) (by omega)
        have harith : attempt + (i + 1) = attempt + 1 + i := by omega
        rwa [harith] at this)
      rw [hrec]
      congr 1
      · omega
      · omega

/-- Unfolding one attempt of the retry loop when attempts remain. -/
theorem retryLoop_first_outcome (statuses : Nat → Nat) (attempt r : Nat) :
    (classifyStatus (statuses attempt) = .ok →
      retryLoop statuses attempt (r + 1) = .success attempt) ∧
    (classifyStatus (statuses attempt) = .unauthorized →
      retryLoop statuses attempt (r + 1) = .unauthorized attempt) ∧
    (classifyStatus (statuses attempt) = .notFound →
      retryLoop statuses attempt (r + 1) = .notFound attempt) := by
  refine ⟨?_, ?_, ?_⟩ <;> intro h <;> simp [retryLoop, h]

/-- The loop performs at most `attempt + remaining` underlying requests. -/
theorem retryLoop_requests_le (statuses : Nat → Nat) :
    ∀ (remaining attempt : Nat), 1 ≤ remaining →
      (retryLoop statuses attempt remaining).requestsMade
        ≤ attempt + remaining := by
  intro remaining
  induction remaining with
  | zero => intro attempt h; omega
  | succ r ih =>
    intro attempt _
    rcases hc : classifyStatus (statuses attempt) with _ | _ | _ | _ <;>
      simp only [retryLoop, hc]
    · simp [RetryOutcome.requestsMade]
    · simp [RetryOutcome.requestsMade]
    · simp [RetryOutcome.requestsMade]
    · by_cases hr : r = 0
      · subst hr
        simp [RetryOutcome.requestsMade]
      · rw [if_neg hr]
        have := ih (attempt + 1) (by omega)
        omega

/-- **C6**.  `request` returns the response of the first attempt with
status 200; a 401 or 404 reached at any attempt is raised immediately and
never retried; 429 and every other non-200 status are retryable, with at
most 6 total attempts, exponential backoff clamped to the band
`[2, 30]` seconds between attempts, and the last error re-raised after
exhaustion. -/
theorem request_retry_policy (statuses : Nat → Nat) :
    (∀ k, k < MAX_RETRIES →
      (∀ i, i < k → classifyStatus (statuses i) = .retryable) →
      ((statuses k = 200 → requestWithRetry statuses = .success k) ∧
       (statuses k = 401 → requestWithRetry statuses = .unauthorized k) ∧
       (statuses k = 404 → requestWithRetry statuses = .notFound k))) ∧
    ((∀ i, i < MAX_RETRIES → classifyStatus (statuses i) = .retryable) →
      requestWithRetry statuses = .exhausted (MAX_RETRIES - 1)) ∧
    (requestWithRetry statuses).requestsMade ≤ MAX_RETRIES ∧
    (∀ n, 2 ≤ backoffSleep n ∧ backoffSleep n ≤ 30) := by
  refine ⟨?_, ?_, ?_, ?_⟩
  · intro k hk hpre
    have hskip := retryLoop_skip statuses k 0 MAX_RETRIES hk
      (fun i hi => by simpa using hpre i hi)
    have hsucc : MAX_RETRIES - k = (MAX_RETRIES - k - 1) + 1 := by
      simp only [MAX_RETRIES] at hk ⊢
      omega
    rw [requestWithRetry] at *
    rw [hskip, Nat.zero_add, hsucc]
    have hout := retryLoop_first_outcome statuses k (MAX_RETRIES - k - 1)
    refine ⟨fun h => hout.1 (by simp [classifyStatus, h]),
      fun h => hout.2.1 (by simp [classifyStatus, h]),
      fun h => hout.2.2 (by simp [classifyStatus, h])⟩
  · intro hall
    have hskip := retryLoop_skip statuses 5 0 MAX_RETRIES (by decide)
      (fun i hi => by simpa using hall i (by simp only [MAX_RETRIES]; omega))
    rw [requestWithRetry, hskip]
    have h5 : classifyStatus (statuses 5) = .retryable :=
      hall 5 (by decide)
    simp [MAX_RETRIES, retryLoop, h5]
  · exact retryLoop_requests_le statuses MAX_RETRIES 0 (by decide)
  · intro n
    constructor
    · exact le_min (by norm_num) (le_max_left _ _)
    · exact min_le_left _ _

/-- **C6 witness**: a first-attempt 404 is raised immediately with exactly
one request made, and six consecutive 500s exhaust the retries with the
last error re-raised; the first backoff sleep is within `[2, 30]`. -/
theorem request_retry_policy_witness :
    requestWithRetry (fun _ => 404) = .notFound 0 ∧
    requestWithRetry (fun _ => 500) = .exhausted 5 ∧
    2 ≤ backoffSleep 1 ∧ backoffSleep 5 ≤ 30 := by
  have h404 := request_retry_policy (fun _ => 404)
  have h500 := request_retry_policy (fun _ => 500)
  refine ⟨(h404.1 0 (by decide) (fun i hi => absurd hi (by omega))).2.2 rfl,
    h500.2.1 (fun i _ => by decide), (h404.2.2.2 1).1, (h500.2.2.2 5).2⟩

/-- A list fetch whose key is already cached is served from the cache with
the state unchanged (no network call). -/
theorem fetchFromApi_hit (net : Network) (inst : ClientInstance)
    (modelName : String) (params : QueryParams) (s : SharedState)
    (v : CacheValue)
    (h : s.cache.lookup (listCacheKey modelName params) = some v) :
    fetchFromApi net inst modelName params s = .ok (v, s) := by
  simp [fetchFromApi, h]

/-- A successful list fetch on a cache miss stores its value under the
key, increments the network-call counter by exactly one and leaves the
request window untouched. -/
theorem fetchFromApi_miss (net : Network) (inst : ClientInstance)
    (modelName : String) (params : QueryParams) (s s1 : SharedState)
    (v : CacheValue)
    (hm : s.cache.lookup (listCacheKey modelName params) = none)
    (hf : fetchFromApi net inst modelName params s = .ok (v, s1)) :
    s1 = ⟨(listCacheKey modelName params, v) :: s.cache,
      s.requestTimestamps, s.networkCalls + 1⟩ := by
  simp only [fetchFromApi, hm] at hf
  repeat' split at hf
  all_goals simp_all
  all_goals obtain ⟨rfl, rfl⟩ := hf
  all_goals rfl

/-- After a successful (or skipped) prefetch, repeating the prefetch on
the returned instance performs no work on any state: a run sets the
per-instance flag, and a skip is decided by instance fields alone. -/
theorem prefetchLineItems_post (net : Network) (now : Int) (fuel : Nat)
    (inst instP : ClientInstance) (s s0 : SharedState)
    (h : prefetchLineItems net now fuel inst s = .ok (instP, s0)) :
    ∀ t : SharedState, prefetchLineItems net now fuel instP t = .ok (instP, t) := by
  intro t
  unfold prefetchLineItems at h
  split_ifs at h with h1 h2
  · obtain ⟨rfl, rfl⟩ : inst = instP ∧ s = s0 := by simpa using h
    simp [prefetchLineItems, h1]
  · obtain ⟨rfl, rfl⟩ : inst = instP ∧ s = s0 := by simpa using h
    cases hf : inst.hasLineItemInCache <;> simp [prefetchLineItems, hf, h2]
  · rcases hloop : getModelPageLoop net inst "line_item"
        [("invoice_id_not_null", ParamValue.str "true")] fuel 1 s with
      e | ⟨rows, s1⟩
    · rw [hloop] at h
      simp at h
    · rw [hloop] at h
      simp only [Except.ok.injEq, Prod.mk.injEq] at h
      obtain ⟨rfl, rfl⟩ := h
      simp [prefetchLineItems]

/-- The prefetch branch is the identity when `prefetchIsNoop` holds. -/
theorem byIdPrefetchStep_noop (net : Network) (now : Int) (fuel : Nat)
    (inst : ClientInstance) (modelName : String) (fromInvoiceModule : Bool)
    (s : SharedState)
    (h : prefetchIsNoop now inst modelName fromInvoiceModule) :
    byIdPrefetchStep net now fuel inst modelName fromInvoiceModule s
      = .ok (inst, s) := by
  rcases h with h | h | h
  · simp [byIdPrefetchStep, h]
  · by_cases hb : modelName = "LineItem" ∧ fromInvoiceModule = true
    · simp [byIdPrefetchStep, hb, prefetchLineItems, h]
    · simp [byIdPrefetchStep, hb]
  · by_cases hb : modelName = "LineItem" ∧ fromInvoiceModule = true
    · cases hf : inst.hasLineItemInCache <;>
        simp [byIdPrefetchStep, hb, prefetchLineItems, h, hf]
    · simp [byIdPrefetchStep, hb]

/-- After a successful prefetch step, repeating it on the returned
instance performs no work on any state. -/
theorem byIdPrefetchStep_post (net : Network) (now : Int) (fuel : Nat)
    (inst instP : ClientInstance) (modelName : String)
    (fromInvoiceModule : Bool) (s s0 : SharedState)
    (h : byIdPrefetchStep net now fuel inst modelName fromInvoiceModule s
      = .ok (instP, s0)) :
    ∀ t, byIdPrefetchStep net now fuel instP modelName fromInvoiceModule t
      = .ok (instP, t) := by
  intro t
  by_cases hb : modelName = "LineItem" ∧ fromInvoiceModule = true
  · simp only [byIdPrefetchStep, if_pos hb] at h ⊢
    exact prefetchLineItems_post net now fuel inst instP s s0 h t
  · simp only [byIdPrefetchStep, if_neg hb] at h
    obtain ⟨rfl, rfl⟩ : inst = instP ∧ s = s0 := by simpa using h
    simp [byIdPrefetchStep, hb]

/-- A by-id fetch whose prefetch step is the identity and whose key holds
a cached object is served from the cache with the state unchanged (no
network call). -/
theorem fetchFromApiById_hit (net : Network) (now : Int) (fuel : Nat)
    (inst : ClientInstance) (modelName : String) (fromInvoiceModule : Bool)
    (instanceId : Int) (s : SharedState) (payload : Json)
    (hstep : byIdPrefetchStep net now fuel inst modelName fromInvoiceModule s
      = .ok (inst, s))
    (h : s.cache.lookup (pyLower modelName ++ "_" ++ toString instanceId)
      = some (CacheValue.single payload))
    (hobj : payload.isObj = true) :
    fetchFromApiById net now fuel inst modelName fromInvoiceModule instanceId s
      = .ok (payload, inst, s) := by
  simp [fetchFromApiById, hstep, h, hobj]

/-- Characterization of every successful by-id fetch: the prefetch step
ran first, the payload is an object, and the call either hit the cache
(state unchanged) or performed exactly one by-id network request and
stored the payload under the key. -/
theorem fetchFromApiById_run (net : Network) (now : Int) (fuel : Nat)
    (inst : ClientInstance) (modelName : String) (fromInvoiceModule : Bool)
    (instanceId : Int) (s : SharedState) (payload : Json)
    (inst1 : ClientInstance) (s1 : SharedState)
    (hf : fetchFromApiById net now fuel inst modelName fromInvoiceModule
      instanceId s = .ok (payload, inst1, s1)) :
    ∃ s0, byIdPrefetchStep net now fuel inst modelName fromInvoiceModule s
        = .ok (inst1, s0) ∧
      payload.isObj = true ∧
      ((s1 = s0 ∧
        s0.cache.lookup (pyLower modelName ++ "_" ++ toString instanceId)
          = some (CacheValue.single payload)) ∨
       (s0.cache.lookup (pyLower modelName ++ "_" ++ toString instanceId)
          = none ∧
        s1 = ⟨(pyLower modelName ++ "_" ++ toString instanceId,
            CacheValue.single payload) :: s0.cache,
          s0.requestTimestamps, s0.networkCalls + 1⟩)) := by
  rcases hpre : byIdPrefetchStep net now fuel inst modelName fromInvoiceModule s
    with e | ⟨instP, s0⟩
  · simp [fetchFromApiById, hpre] at hf
  · simp only [fetchFromApiById, hpre] at hf
    rcases hlook : s0.cache.lookup
        (pyLower modelName ++ "_" ++ toString instanceId) with _ | cv
    · rw [hlook] at hf
      repeat' split at hf
      all_goals try (exfalso; simp_all; done)
      simp only [Except.ok.injEq, Prod.mk.injEq] at hf
      obtain ⟨rfl, rfl, rfl⟩ := hf
      exact ⟨s0, rfl, rfl, Or.inr ⟨hlook, rfl⟩⟩
    · cases cv with
      | single p =>
        rw [hlook] at hf
        simp only [] at hf
        split_ifs at hf with hobj
        simp only [Except.ok.injEq, Prod.mk.injEq] at hf
        obtain ⟨rfl, rfl, rfl⟩ := hf
        exact ⟨s0, rfl, hobj, Or.inl ⟨rfl, hlook⟩⟩
      | listResult rows meta =>
        rw [hlook] at hf
        simp at hf

/-- A cold-cycle client: prefetch flag unset and no `updated_at`, as after
`Client.__init__` (client.py:81-82). -/
def c7Client : ClientInstance := ⟨"u", "t", none, false⟩

/-- A concrete network for the prefetch scenario: the by-id request (no
query params) answers with a single `line_item` object, and every list
request answers with a one-page `line_items` listing. -/
def c7LineItemNet : Network := fun _ params =>
  if params.isEmpty then
    Json.obj [("line_item",
      Json.obj [("id", Json.num 7), ("invoice_id", Json.num 3)])]
  else
    Json.obj [("line_items",
      Json.arr [Json.obj [("id", Json.num 7), ("invoice_id", Json.num 3)]]),
      ("meta", Json.obj [("total_pages", Json.num 1),
        ("total_entries", Json.num 1)])]

/-- A concrete network for the no-prefetch witness: every request answers
with a single `user` object. -/
def c7UserNet : Network := fun _ _ =>
  Json.obj [("user", Json.obj [("id", Json.num 1)])]

/-- The shared state after the first `User` by-id fetch on an empty
cache: the payload cached under `user_1` and one network call made. -/
def c7UserState1 : SharedState :=
  ⟨[("user_1", CacheValue.single (Json.obj [("id", Json.num 1)]))], [], 1⟩

/-- **C7 counterexample**: a cold-cycle by-id fetch of the invoice-module
`LineItem` model (flag unset, no `updated_at`) first runs
`prefetch_line_items` — here a one-page listing — and then its own by-id
request: a single first fetch performs **two** network requests, refuting
"exactly one network request" as universally stated over model names. -/
theorem by_id_prefetch_performs_extra_requests_counterexample :
    c7Client.hasLineItemInCache = false ∧
    prefetchRecencySkip 0 c7Client = false ∧
    (fetchFromApiById c7LineItemNet 0 1 c7Client "LineItem" true 7
        ⟨[], [], 0⟩).map
        (fun r => (r.2.1.hasLineItemInCache, r.2.2.networkCalls))
      = .ok (true, 2) := by
  exact ⟨rfl, rfl, rfl⟩

/-- **C7 amended**.  Two consecutive identical list fetches perform
exactly one network request (the first stores the result under the
sorted-params key, the second returns the stored value with the state
unchanged); the second of two consecutive identical by-id fetches always
returns the stored value with no further work; and the first by-id fetch
performs exactly one network request whenever the prefetch branch is a
no-op — every model other than the invoice-module `LineItem`, or a set
prefetch flag, or a fresh `updated_at` (on a cold invoice-`LineItem`
fetch the one-time prefetch issues its own paginated list requests
first). -/
theorem fetch_memoization (net : Network) (now : Int) (fuel : Nat)
    (inst : ClientInstance) (modelName : String) (params : QueryParams)
    (fromInvoiceModule : Bool) (instanceId : Int) (s : SharedState) :
    (∀ v s1, s.cache.lookup (listCacheKey modelName params) = none →
      fetchFromApi net inst modelName params s = .ok (v, s1) →
      s1.networkCalls = s.networkCalls + 1 ∧
      s1.cache.lookup (listCacheKey modelName params) = some v ∧
      fetchFromApi net inst modelName params s1 = .ok (v, s1)) ∧
    (∀ payload inst1 s1,
      fetchFromApiById net now fuel inst modelName fromInvoiceModule
        instanceId s = .ok (payload, inst1, s1) →
      fetchFromApiById net now fuel inst1 modelName fromInvoiceModule
        instanceId s1 = .ok (payload, inst1, s1)) ∧
    (∀ payload inst1 s1,
      prefetchIsNoop now inst modelName fromInvoiceModule →
      s.cache.lookup (pyLower modelName ++ "_" ++ toString instanceId)
        = none →
      fetchFromApiById net now fuel inst modelName fromInvoiceModule
        instanceId s = .ok (payload, inst1, s1) →
      inst1 = inst ∧ s1.networkCalls = s.networkCalls + 1) := by
  refine ⟨?_, ?_, ?_⟩
  · intro v s1 hm hf
    have hchar := fetchFromApi_miss net inst modelName params s s1 v hm hf
    subst hchar
    refine ⟨rfl, by simp [List.lookup], ?_⟩
    exact fetchFromApi_hit net inst modelName params _ v (by simp [List.lookup])
  · intro payload inst1 s1 hf
    obtain ⟨s0, hpre, hobj, hcase⟩ := fetchFromApiById_run net now fuel inst
      modelName fromInvoiceModule instanceId s payload inst1 s1 hf
    have hpost := byIdPrefetchStep_post net now fuel inst inst1 modelName
      fromInvoiceModule s s0 hpre
    rcases hcase with ⟨rfl, hlook⟩ | ⟨hmiss, rfl⟩
    · exact fetchFromApiById_hit net now fuel inst1 modelName
        fromInvoiceModule instanceId _ payload (hpost _) hlook hobj
    · refine fetchFromApiById_hit net now fuel inst1 modelName
        fromInvoiceModule instanceId _ payload (hpost _) ?_ hobj
      simp [List.lookup]
  · intro payload inst1 s1 hnoop hm hf
    have hstep := byIdPrefetchStep_noop net now fuel inst modelName
      fromInvoiceModule s hnoop
    obtain ⟨s0, hpre, hobj, hcase⟩ := fetchFromApiById_run net now fuel inst
      modelName fromInvoiceModule instanceId s payload inst1 s1 hf
    rw [hstep] at hpre
    simp only [Except.ok.injEq, Prod.mk.injEq] at hpre
    obtain ⟨rfl, rfl⟩ := hpre
    rcases hcase with ⟨rfl, hlook⟩ | ⟨hmiss, rfl⟩
    · rw [hm] at hlook
      cases hlook
    · exact ⟨rfl, rfl⟩

/-- **C7 amended witness**: for the `User` model (prefetch branch
inapplicable), the first by-id fetch on an empty cache performs exactly
one network request, and the identical second call returns the stored
payload with the state unchanged. -/
theorem fetch_memoization_witness :
    fetchFromApiById c7UserNet 0 1 c7Client "User" false 1 c7UserState1
      = .ok (Json.obj [("id", Json.num 1)], c7Client, c7UserState1) ∧
    c7UserState1.networkCalls = (SharedState.mk [] [] 0).networkCalls + 1 := by
  have h := fetch_memoization c7UserNet 0 1 c7Client "User" [] false 1
    ⟨[], [], 0⟩
  refine ⟨h.2.1 (Json.obj [("id", Json.num 1)]) c7Client c7UserState1 rfl, ?_⟩
  exact (h.2.2 (Json.obj [("id", Json.num 1)]) c7Client c7UserState1
    (Or.inl (by decide)) rfl rfl).2

/-- A concrete network for the shared-state scenario: every list request
answers with one `widget` row and one-page metadata. -/
def exNet : Network := fun _ _ =>
  Json.obj [("widgets", Json.arr [Json.obj [("id", Json.num 1)]]),
    ("meta", Json.obj [("total_pages", Json.num 1)])]

/-- First client instance of the shared-state scenario. -/
def clientA : ClientInstance :=
  ⟨"https://a.repairshopr.com/api/v1", "token-a", none, false⟩

/-- Second, distinct client instance of the shared-state scenario. -/
def clientB : ClientInstance :=
  ⟨"https://b.repairshopr.com/api/v1", "token-b", none, false⟩

/-- The list result `exNet` produces for the `widget` listing. -/
def exValue : CacheValue :=
  .listResult [Json.obj [("id", Json.num 1)]]
    (some (Json.obj [("total_pages", Json.num 1)]))

/-- The shared class-attribute state after `clientA`'s fetch on an
initially empty state. -/
def exState1 : SharedState :=
  ⟨[(listCacheKey "widget" [], exValue)], [], 1⟩

/-- **C3 counterexample**: `_cache` is a class attribute, so a fetch
performed through one `Client` instance changes the cached values observed
by a distinct instance: before `clientA`'s fetch the key is absent; after
it, `clientB` observes the entry and its own identical fetch is served
from `clientA`'s cache with the state (and network-call count) unchanged. -/
theorem shared_cache_across_instances_counterexample :
    (SharedState.mk [] [] 0).cache.lookup (listCacheKey "widget" []) = none ∧
    fetchFromApi exNet clientA "widget" [] ⟨[], [], 0⟩
      = .ok (exValue, exState1) ∧
    exState1.cache.lookup (listCacheKey "widget" []) = some exValue ∧
    fetchFromApi exNet clientB "widget" [] exState1
      = .ok (exValue, exState1) ∧
    exState1.networkCalls = (SharedState.mk [] [] 0).networkCalls + 1 ∧
    clientA ≠ clientB := by
  exact ⟨rfl, rfl, rfl, rfl, rfl, by decide⟩

/-- **C3 amended**: the cache and the request-window timestamps are
class-level state shared by every `Client` instance: a fetch through one
instance installs the cache entry that every other instance observes, and
an identical fetch through any other instance is then served from the
shared cache without a network call; `clear_cache` (called at the cycle
boundary) empties the shared cache but does not reset the request-window
timestamps. -/
theorem class_level_cache_shared_and_window_not_reset (net : Network)
    (instA instB : ClientInstance) (modelName : String) (params : QueryParams)
    (s s1 : SharedState) (v : CacheValue)
    (hmiss : s.cache.lookup (listCacheKey modelName params) = none)
    (hfetch : fetchFromApi net instA modelName params s = .ok (v, s1)) :
    s1.networkCalls = s.networkCalls + 1 ∧
    s1.cache.lookup (listCacheKey modelName params) = some v ∧
    fetchFromApi net instB modelName params s1 = .ok (v, s1) ∧
    (clearCache s1).cache = [] ∧
    (clearCache s1).requestTimestamps = s1.requestTimestamps := by
  have hchar := fetchFromApi_miss net instA modelName params s s1 v hmiss hfetch
  subst hchar
  refine ⟨rfl, by simp [List.lookup], ?_, rfl, rfl⟩
  exact fetchFromApi_hit net instB modelName params _ v (by simp [List.lookup])

/-- **C3 amended witness**: the amended theorem at the concrete
shared-state scenario — `clientB`'s fetch is served from the state written
by `clientA`'s fetch. -/
theorem class_level_cache_shared_and_window_not_reset_witness :
    fetchFromApi exNet clientB "widget" [] exState1
      = .ok (exValue, exState1) :=
  (class_level_cache_shared_and_window_not_reset exNet clientA clientB
    "widget" [] ⟨[], [], 0⟩ exState1 exValue rfl rfl).2.2.1

end RSApi
